import Mathlib

set_option maxHeartbeats 1000000

namespace ArrayAssignScalar

/-- Byte-addressed memory; addresses are integers because strides may be negative. -/
abbrev Mem := Int → Nat

/-- Element type descriptor: the fields of PyArray_Descr that the assignment core
reads (element size, alignment requirement, whether the type requires
reference-count-aware handling), plus a tag distinguishing otherwise identical
types. -/
structure Descr where
  elsize : Nat
  alignment : Nat
  refchk : Bool
  tag : Nat
deriving DecidableEq

/-- Modelled from the spec: npy_is_aligned (npy_common.h, outside src/); a pointer
or stride satisfies an alignment requirement when it is a multiple of it, and an
alignment of 0 or 1 is always satisfied. -/
def npy_is_aligned (p : Int) (a : Nat) : Bool :=
  if a ≤ 1 then true else p % (a : Int) == 0

/-- Modelled from the spec: raw_array_is_aligned (array_assign.c, outside src/);
the destination satisfies its per-element alignment requirement at the base
pointer and at every stride step. -/
def raw_array_is_aligned (data : Int) (strides : List Int) (alignment : Nat) : Bool :=
  npy_is_aligned data alignment && strides.all (fun s => npy_is_aligned s alignment)

/-- The casting policy enumeration NPY_CASTING. -/
inductive NPY_CASTING where
  | NPY_NO_CASTING
  | NPY_EQUIV_CASTING
  | NPY_SAFE_CASTING
  | NPY_SAME_KIND_CASTING
  | NPY_UNSAFE_CASTING
deriving DecidableEq

/-- Modelled from the spec: npy_casting_to_string (convert_datatype.c, outside
src/); the printable name of a casting rule. -/
def npy_casting_to_string : NPY_CASTING → String
  | .NPY_NO_CASTING => "no"
  | .NPY_EQUIV_CASTING => "equiv"
  | .NPY_SAFE_CASTING => "safe"
  | .NPY_SAME_KIND_CASTING => "same_kind"
  | .NPY_UNSAFE_CASTING => "unsafe"

/-- Modelled from the spec: PyArray_EquivTypes (outside src/); whether two type
descriptors are equivalent. -/
def PyArray_EquivTypes (a b : Descr) : Bool :=
  decide (a = b)

/-- A destination (or mask) array object: descriptor, base data pointer, shape,
strides, writeability flag, and the memory its data pointer addresses. -/
structure PyArrayObject where
  descr : Descr
  data : Int
  shape : List Nat
  strides : List Int
  writeable : Bool
  mem : Mem

/-- Total element count of a shape (product of all extents). -/
def prodShape : List Nat → Nat
  | [] => 1
  | n :: rest => n * prodShape rest

/-- PyArray_SIZE: total number of elements of an array. -/
def PyArray_SIZE (a : PyArrayObject) : Nat :=
  prodShape a.shape

/-- All coordinate tuples of a shape, in row-major order. -/
def coordsList : List Nat → List (List Nat)
  | [] => [[]]
  | n :: rest => (List.range n).flatMap (fun i => (coordsList rest).map (fun c => i :: c))

/-- Byte offset of a coordinate tuple under a strides vector. -/
def offsetOf : List Nat → List Int → Int
  | [], _ => 0
  | _, [] => 0
  | c :: cs, s :: ss => (c : Int) * s + offsetOf cs ss

/-- Write one element of n bytes, with byte values given by v, at a base address. -/
def storeElem (m : Mem) (base : Int) (n : Nat) (v : Nat → Nat) : Mem :=
  fun a => if base ≤ a ∧ a < base + (n : Int) then v (a - base).toNat else m a

/-- Observable events of a broadcast engine, in execution order: obtaining the
transfer function, computing the element count, releasing and reacquiring the
coarse-grained execution lock, and the per-element transfer attempts. -/
inductive Event where
  | getTransfer
  | computeCount
  | releaseLock
  | write (off : Int)
  | reacquireLock
deriving DecidableEq

/-- Modelled from the spec: the threshold of NPY_BEGIN_THREADS_THRESHOLDED
(outside src/); the lock is released only when the element count exceeds it. -/
def threadThreshold : Nat := 500

/-- The external collaborators of the core, modelled from the spec: the
value-aware cast-safety predicate, the raw-byte conversion semantics, the
transfer-function constructors (success, guarded-execution requirement, and
whether guarded execution raises a pending error), type representations, and
allocation behaviour. The invariant raises_imp_api records that an error during
the write loop is only possible when the chosen transfer requires guarded
execution. -/
structure Externals where
  castElem : Descr → Descr → (Nat → Nat) → Nat → Nat
  castOK : Bool → Descr → Descr → Bool
  maskedCastOK : Bool → Descr → Descr → Descr → Bool
  needsApiFor : Descr → Descr → Bool
  transferRaises : Descr → Descr → Bool
  raises_imp_api : ∀ s d, transferRaises s d = true → needsApiFor s d = true
  canCastScalarTo : Descr → (Nat → Nat) → Descr → NPY_CASTING → Bool
  reprOf : Descr → String
  mallocOK : Bool
  castRawOK : Descr → Descr → Bool
  stagedAddr : Int

/-- Result of a broadcast engine: return code, final memory, the alignment flag
passed to the transfer-function selector, whether a pending error was raised
during the write loop, and the event trace. -/
structure EngineOut where
  ret : Int
  mem : Mem
  alignedFlag : Bool
  errPending : Bool
  trace : List Event

/-- raw_array_assign_scalar (array_assign_scalar.c, lines 32 to 94): assigns the
scalar value to every element of the destination raw array. The iteration
normalizer and the per-run transfer callback are outside src/ and are modelled
from the spec: the loop visits every coordinate of the shape and writes the
scalar bytes, converted to the destination type, into each destination slot. -/
def raw_array_assign_scalar (e : Externals) (shape : List Nat)
    (dst_dtype : Descr) (dst_data : Int) (dst_strides : List Int)
    (src_dtype : Descr) (src_data : Int) (srcBytes : Nat → Nat)
    (mem : Mem) : EngineOut :=
  let aligned := raw_array_is_aligned dst_data dst_strides dst_dtype.alignment
      && npy_is_aligned src_data src_dtype.alignment
  if e.castOK aligned src_dtype dst_dtype = false then
    { ret := -1, mem := mem, alignedFlag := aligned, errPending := false,
      trace := [.getTransfer] }
  else
    let needs_api := e.needsApiFor src_dtype dst_dtype
    let v := e.castElem src_dtype dst_dtype srcBytes
    let offs := (coordsList shape).map (fun c => dst_data + offsetOf c dst_strides)
    let nitems := prodShape shape
    let released := !needs_api && decide (threadThreshold < nitems)
    let mem2 := offs.foldl (fun m o => storeElem m o dst_dtype.elsize v) mem
    let err := e.transferRaises src_dtype dst_dtype && decide (0 < nitems)
    { ret := if needs_api && err then -1 else 0
      mem := mem2
      alignedFlag := aligned
      errPending := err
      trace := [.getTransfer]
        ++ (if needs_api then [] else [.computeCount])
        ++ (if released then [.releaseLock] else [])
        ++ offs.map Event.write
        ++ (if released then [.reacquireLock] else []) }

/-- raw_array_wheremasked_assign_scalar (array_assign_scalar.c, lines 102 to
171): assigns the scalar value to every element of the destination raw array
where the wheremask value is true. The masked transfer callback is outside src/
and is modelled from the spec: for each position it copies the converted scalar
into the destination slot only where the corresponding mask byte is true, and
positions where the mask is false are left untouched. -/
def raw_array_wheremasked_assign_scalar (e : Externals) (shape : List Nat)
    (dst_dtype : Descr) (dst_data : Int) (dst_strides : List Int)
    (src_dtype : Descr) (src_data : Int) (srcBytes : Nat → Nat)
    (wheremask_dtype : Descr) (wheremask_data : Int) (wheremask_strides : List Int)
    (maskMem : Mem) (mem : Mem) : EngineOut :=
  let aligned := raw_array_is_aligned dst_data dst_strides dst_dtype.alignment
      && npy_is_aligned src_data src_dtype.alignment
  if e.maskedCastOK aligned src_dtype dst_dtype wheremask_dtype = false then
    { ret := -1, mem := mem, alignedFlag := aligned, errPending := false,
      trace := [.getTransfer] }
  else
    let needs_api := e.needsApiFor src_dtype dst_dtype
    let v := e.castElem src_dtype dst_dtype srcBytes
    let pairs := (coordsList shape).map
        (fun c => (dst_data + offsetOf c dst_strides,
                   wheremask_data + offsetOf c wheremask_strides))
    let nitems := prodShape shape
    let released := !needs_api && decide (threadThreshold < nitems)
    let mem2 := pairs.foldl
        (fun m p => if maskMem p.2 ≠ 0 then storeElem m p.1 dst_dtype.elsize v else m) mem
    let err := e.transferRaises src_dtype dst_dtype && decide (0 < nitems)
    { ret := if needs_api && err then -1 else 0
      mem := mem2
      alignedFlag := aligned
      errPending := err
      trace := [.getTransfer]
        ++ (if needs_api then [] else [.computeCount])
        ++ (if released then [.releaseLock] else [])
        ++ pairs.map (fun p => Event.write p.1)
        ++ (if released then [.reacquireLock] else []) }

/-- Errors the orchestrator itself raises. The cast-forbidden error carries the
source type representation, the destination type representation, and the
casting-rule name, as built at lines 204 to 215 of the source. -/
inductive AErr where
  | notWriteable
  | cannotCastScalar (srcRepr : String) (dstRepr : String) (rule : String)
  | noMemory
deriving DecidableEq

/-- Result of the orchestrator: return code, final destination memory, any
orchestrator-raised error, whether a staging buffer was created, whether it was
heap-allocated, how many times the staged buffer was freed, the scalar type and
bytes a broadcast engine was invoked with (if any), and the engine trace. -/
structure AssignOut where
  ret : Int
  mem : Mem
  err : Option AErr
  staged : Bool
  allocatedHeap : Bool
  frees : Nat
  engineCall : Option (Descr × (Nat → Nat))
  engineTrace : List Event

/-- Modelled from the spec: broadcast_strides (shape.c, outside src/); for each
destination dimension, a matching mask dimension keeps its stride, a singleton
mask dimension gets stride zero, and any other relationship fails; missing
leading mask dimensions get stride zero. -/
def broadcast_strides_go : List Nat → List Nat → List Int → Option (List Int)
  | [], [], [] => some []
  | d :: ds, sd :: sds, ss :: sss =>
      match broadcast_strides_go ds sds sss with
      | none => none
      | some rest =>
          if sd = d then some (ss :: rest)
          else if sd = 1 then some ((0 : Int) :: rest)
          else none
  | _, _, _ => none

/-- Modelled from the spec: broadcast_strides (shape.c, outside src/), top level:
right-aligns the mask shape against the destination shape. -/
def broadcast_strides (shape : List Nat) (sshape : List Nat)
    (sstrides : List Int) : Option (List Int) :=
  if sshape.length > shape.length ∨ sstrides.length ≠ sshape.length then none
  else
    (broadcast_strides_go (shape.drop (shape.length - sshape.length)) sshape sstrides).map
      (fun rest => List.replicate (shape.length - sshape.length) 0 ++ rest)

/-- sizeof(scalarbuffer) at line 195: four 8-byte integers. -/
def scalarbufferSize : Nat := 32

/-- The dispatch-and-cleanup tail of PyArray_AssignRawScalar (lines 259 to 301):
invoke the unconditional engine, or broadcast the mask strides and invoke the
masked engine, then free the staged buffer if it was heap-allocated, on the
success and failure exits alike. -/
def finishAssign (e : Externals) (dst : PyArrayObject) (src_dtype : Descr)
    (src_data : Int) (srcBytes : Nat → Nat) (wheremask : Option PyArrayObject)
    (staged : Bool) (allocated : Bool) : AssignOut :=
  match wheremask with
  | none =>
      let eo := raw_array_assign_scalar e dst.shape dst.descr dst.data dst.strides
          src_dtype src_data srcBytes dst.mem
      { ret := eo.ret, mem := eo.mem, err := none, staged := staged,
        allocatedHeap := allocated, frees := if allocated then 1 else 0,
        engineCall := some (src_dtype, srcBytes), engineTrace := eo.trace }
  | some wm =>
      match broadcast_strides dst.shape wm.shape wm.strides with
      | none =>
          { ret := -1, mem := dst.mem, err := none, staged := staged,
            allocatedHeap := allocated, frees := if allocated then 1 else 0,
            engineCall := none, engineTrace := [] }
      | some wstrides =>
          let eo := raw_array_wheremasked_assign_scalar e dst.shape dst.descr
              dst.data dst.strides src_dtype src_data srcBytes
              wm.descr wm.data wstrides wm.mem dst.mem
          { ret := eo.ret, mem := eo.mem, err := none, staged := staged,
            allocatedHeap := allocated, frees := if allocated then 1 else 0,
            engineCall := some (src_dtype, srcBytes), engineTrace := eo.trace }

/-- PyArray_AssignRawScalar (array_assign_scalar.c, lines 188 to 302): validates
writability, checks the value-aware cast-safety predicate, stages the scalar
into an inline or heap buffer when needed, and dispatches to a broadcast
engine; the staged buffer, if heap-allocated, is freed on every exit path. The
writability check, the cast-safety predicate, the raw-byte conversion, and
allocation are outside src/ and are modelled from the spec as oracles. -/
def PyArray_AssignRawScalar (e : Externals) (dst : PyArrayObject)
    (src_dtype : Descr) (src_data : Int) (srcBytes : Nat → Nat)
    (wheremask : Option PyArrayObject) (casting : NPY_CASTING) : AssignOut :=
  if dst.writeable = false then
    { ret := -1, mem := dst.mem, err := some .notWriteable, staged := false,
      allocatedHeap := false, frees := 0, engineCall := none, engineTrace := [] }
  else if e.canCastScalarTo src_dtype srcBytes dst.descr casting = false then
    { ret := -1, mem := dst.mem,
      err := some (.cannotCastScalar (e.reprOf src_dtype) (e.reprOf dst.descr)
        (npy_casting_to_string casting)),
      staged := false, allocatedHeap := false, frees := 0,
      engineCall := none, engineTrace := [] }
  else if ((!PyArray_EquivTypes dst.descr src_dtype
        || !npy_is_aligned src_data src_dtype.alignment)
      && decide (1 < PyArray_SIZE dst) && !dst.descr.refchk) = true then
    if scalarbufferSize ≥ dst.descr.elsize then
      if e.castRawOK src_dtype dst.descr = false then
        { ret := -1, mem := dst.mem, err := none, staged := true,
          allocatedHeap := false, frees := 0, engineCall := none, engineTrace := [] }
      else
        finishAssign e dst dst.descr e.stagedAddr
          (e.castElem src_dtype dst.descr srcBytes) wheremask true false
    else if e.mallocOK = false then
      { ret := -1, mem := dst.mem, err := some .noMemory, staged := false,
        allocatedHeap := false, frees := 0, engineCall := none, engineTrace := [] }
    else if e.castRawOK src_dtype dst.descr = false then
      { ret := -1, mem := dst.mem, err := none, staged := true,
        allocatedHeap := true, frees := 1, engineCall := none, engineTrace := [] }
    else
      finishAssign e dst dst.descr e.stagedAddr
        (e.castElem src_dtype dst.descr srcBytes) wheremask true true
  else
    finishAssign e dst src_dtype src_data srcBytes wheremask false false

/-! Helper lemmas and concrete instances shared by the claim theorems. -/

/-- If the shape has a zero extent, there are no coordinate tuples. -/
theorem coordsList_eq_nil (s : List Nat) (h : prodShape s = 0) : coordsList s = [] := by
  induction s with
  | nil => simp [prodShape] at h
  | cons n rest ih =>
      rw [prodShape, Nat.mul_eq_zero] at h
      cases h with
      | inl h0 => simp [coordsList, h0]
      | inr h1 => simp [coordsList, ih h1]

/-- A masked write fold over pairs whose mask byte is everywhere true equals the
unmasked write fold over the destination offsets. -/
theorem foldl_masked_eq_foldl (maskMem : Mem) (elsize : Nat) (v : Nat → Nat)
    (l : List (Int × Int)) (m : Mem)
    (h : ∀ p ∈ l, maskMem p.2 ≠ 0) :
    l.foldl (fun m p => if maskMem p.2 = 0 then m else storeElem m p.1 elsize v) m
      = (l.map Prod.fst).foldl (fun m o => storeElem m o elsize v) m := by
  induction l generalizing m with
  | nil => rfl
  | cons p t ih =>
      simp only [List.foldl_cons, List.map_cons]
      rw [if_neg (h p (List.mem_cons_self p t))]
      exact ih _ (fun q hq => h q (List.mem_cons_of_mem _ hq))

/-- A masked write fold over pairs whose mask byte is everywhere zero leaves the
memory unchanged. -/
theorem foldl_masked_allFalse (maskMem : Mem) (elsize : Nat) (v : Nat → Nat)
    (l : List (Int × Int)) (m : Mem)
    (h : ∀ p ∈ l, maskMem p.2 = 0) :
    l.foldl (fun m p => if maskMem p.2 = 0 then m else storeElem m p.1 elsize v) m = m := by
  induction l generalizing m with
  | nil => rfl
  | cons p t ih =>
      simp only [List.foldl_cons]
      rw [if_pos (h p (List.mem_cons_self p t))]
      exact ih _ (fun q hq => h q (List.mem_cons_of_mem _ hq))

/-- A 1-byte unsigned integer descriptor, for witnesses. -/
def byteDescr : Descr :=
  { elsize := 1, alignment := 1, refchk := false, tag := 0 }

/-- A 4-byte integer descriptor, for witnesses. -/
def intDescr : Descr :=
  { elsize := 4, alignment := 4, refchk := false, tag := 1 }

/-- A concrete set of external collaborators for witnesses: every oracle
succeeds, no transfer needs guarded execution, conversion is the identity on
bytes. -/
def exampleExt : Externals :=
  { castElem := fun _ _ v => v
    castOK := fun _ _ _ => true
    maskedCastOK := fun _ _ _ _ => true
    needsApiFor := fun _ _ => false
    transferRaises := fun _ _ => false
    raises_imp_api := fun _ _ h => Bool.noConfusion h
    canCastScalarTo := fun _ _ _ _ => true
    reprOf := fun d => toString d.tag
    mallocOK := true
    castRawOK := fun _ _ => true
    stagedAddr := 0 }

/-- Externals whose cast-safety predicate rejects everything, for witnesses. -/
def extReject : Externals :=
  { exampleExt with canCastScalarTo := fun _ _ _ _ => false }

/-- Externals whose transfer-function constructors fail, for witnesses. -/
def extNoTransfer : Externals :=
  { exampleExt with castOK := fun _ _ _ => false,
                    maskedCastOK := fun _ _ _ _ => false }

/-- A concrete writable destination: shape [2] of 4-byte integers, for
witnesses. -/
def dstA : PyArrayObject :=
  { descr := intDescr, data := 0, shape := [2], strides := [4],
    writeable := true, mem := fun _ => 0 }

/-- A concrete zero-sized writable destination: shape [0], for witnesses. -/
def dstZero : PyArrayObject :=
  { descr := intDescr, data := 0, shape := [0], strides := [4],
    writeable := true, mem := fun _ => 0 }

/-! The claim theorems. -/

/-- C1: when the value-aware cast-safety predicate rejects the conversion of the
scalar to the destination type under the requested casting policy (and the
destination is writable, so the cast check is reached), AssignScalar fails with
a type error naming the source type representation, the destination type
representation, and the casting-rule name, and the destination memory is
unmodified: no staging buffer is created and no iteration occurs. -/
theorem assignRawScalar_cast_reject (e : Externals) (dst : PyArrayObject)
    (src_dtype : Descr) (src_data : Int) (srcBytes : Nat → Nat)
    (wheremask : Option PyArrayObject) (casting : NPY_CASTING)
    (hw : dst.writeable = true)
    (hc : e.canCastScalarTo src_dtype srcBytes dst.descr casting = false) :
    (PyArray_AssignRawScalar e dst src_dtype src_data srcBytes wheremask casting).ret = -1
    ∧ (PyArray_AssignRawScalar e dst src_dtype src_data srcBytes wheremask casting).err
        = some (.cannotCastScalar (e.reprOf src_dtype) (e.reprOf dst.descr)
            (npy_casting_to_string casting))
    ∧ (PyArray_AssignRawScalar e dst src_dtype src_data srcBytes wheremask casting).mem = dst.mem
    ∧ (PyArray_AssignRawScalar e dst src_dtype src_data srcBytes wheremask casting).staged = false
    ∧ (PyArray_AssignRawScalar e dst src_dtype src_data srcBytes wheremask casting).engineCall = none
    ∧ (PyArray_AssignRawScalar e dst src_dtype src_data srcBytes wheremask casting).engineTrace = [] := by
  simp [PyArray_AssignRawScalar, hw, hc]

/-- Witness for C1 at a concrete input: a negative 1-byte scalar rejected by the
safe casting rule on a 4-byte integer destination. -/
theorem assignRawScalar_cast_reject_witness :
    dstA.writeable = true
    ∧ extReject.canCastScalarTo byteDescr (fun _ => 255) dstA.descr .NPY_SAFE_CASTING = false
    ∧ (PyArray_AssignRawScalar extReject dstA byteDescr 0 (fun _ => 255) none
        .NPY_SAFE_CASTING).ret = -1
    ∧ (PyArray_AssignRawScalar extReject dstA byteDescr 0 (fun _ => 255) none
        .NPY_SAFE_CASTING).mem = dstA.mem
    ∧ (PyArray_AssignRawScalar extReject dstA byteDescr 0 (fun _ => 255) none
        .NPY_SAFE_CASTING).staged = false := by
  refine ⟨rfl, rfl, ?_⟩
  have h := assignRawScalar_cast_reject extReject dstA byteDescr 0 (fun _ => 255) none
    .NPY_SAFE_CASTING rfl rfl
  exact ⟨h.1, h.2.2.1, h.2.2.2.1⟩

/-- C3: on every exit path of AssignScalar, the staged scalar buffer is freed
exactly once when it was heap-allocated, and never freed otherwise (inline
buffer used, or no staging occurred). -/
theorem assignRawScalar_free_exactly_once (e : Externals) (dst : PyArrayObject)
    (src_dtype : Descr) (src_data : Int) (srcBytes : Nat → Nat)
    (wheremask : Option PyArrayObject) (casting : NPY_CASTING) :
    (PyArray_AssignRawScalar e dst src_dtype src_data srcBytes wheremask casting).frees
      = if (PyArray_AssignRawScalar e dst src_dtype src_data srcBytes wheremask casting).allocatedHeap
        then 1 else 0 := by
  unfold PyArray_AssignRawScalar finishAssign
  repeat' split
  all_goals simp_all

/-- The staging condition of lines 226 to 229, as a proposition. -/
theorem stagingCond_iff (dst : PyArrayObject) (src_dtype : Descr) (src_data : Int) :
    ((!PyArray_EquivTypes dst.descr src_dtype
        || !npy_is_aligned src_data src_dtype.alignment)
      && decide (1 < PyArray_SIZE dst) && !dst.descr.refchk) = true
    ↔ ((¬ src_dtype = dst.descr ∨ npy_is_aligned src_data src_dtype.alignment = false)
        ∧ 1 < PyArray_SIZE dst ∧ dst.descr.refchk = false) := by
  unfold PyArray_EquivTypes
  simp only [Bool.and_eq_true, Bool.or_eq_true, Bool.not_eq_true',
    decide_eq_true_eq, decide_eq_false_iff_not, and_assoc]
  constructor
  · rintro ⟨h1, h2, h3⟩
    exact ⟨h1.imp (fun hne he => hne he.symm) id, h2, h3⟩
  · rintro ⟨h1, h2, h3⟩
    exact ⟨h1.imp (fun hne he => hne he.symm) id, h2, h3⟩

/-- C2: assuming the writability and cast-safety checks pass (so the staging
decision is reached) and allocation does not fail, AssignScalar creates a
staging buffer exactly when the scalar type differs from the destination type
or the scalar pointer is misaligned for its own alignment requirement, AND the
destination has more than one element, AND the destination type does not
require reference-count-aware handling; and whenever staging occurred, any
broadcast engine invoked afterwards receives the destination type and the
scalar bytes converted to it as the scalar source. In particular, for a scalar
of the destination type at an aligned pointer, no staging buffer is created. -/
theorem assignRawScalar_staging_iff (e : Externals) (dst : PyArrayObject)
    (src_dtype : Descr) (src_data : Int) (srcBytes : Nat → Nat)
    (wheremask : Option PyArrayObject) (casting : NPY_CASTING)
    (hw : dst.writeable = true)
    (hc : e.canCastScalarTo src_dtype srcBytes dst.descr casting = true)
    (hm : e.mallocOK = true) :
    ((PyArray_AssignRawScalar e dst src_dtype src_data srcBytes wheremask casting).staged = true
      ↔ ((¬ src_dtype = dst.descr ∨ npy_is_aligned src_data src_dtype.alignment = false)
          ∧ 1 < PyArray_SIZE dst ∧ dst.descr.refchk = false))
    ∧ (∀ p, (PyArray_AssignRawScalar e dst src_dtype src_data srcBytes wheremask casting).engineCall
          = some p →
        (PyArray_AssignRawScalar e dst src_dtype src_data srcBytes wheremask casting).staged = true →
        p.1 = dst.descr ∧ p.2 = e.castElem src_dtype dst.descr srcBytes) := by
  rw [← stagingCond_iff dst src_dtype src_data]
  unfold PyArray_AssignRawScalar finishAssign
  simp only [hw, hc]
  repeat' split
  all_goals simp_all

/-- Witness for C2 at a concrete input: a 1-byte scalar assigned to a
two-element 4-byte integer destination is staged, and the engine receives the
destination type. -/
theorem assignRawScalar_staging_iff_witness :
    dstA.writeable = true
    ∧ exampleExt.canCastScalarTo byteDescr (fun _ => 5) dstA.descr .NPY_SAFE_CASTING = true
    ∧ exampleExt.mallocOK = true
    ∧ ((PyArray_AssignRawScalar exampleExt dstA byteDescr 0 (fun _ => 5) none
          .NPY_SAFE_CASTING).staged = true
        ↔ ((¬ byteDescr = dstA.descr ∨ npy_is_aligned 0 byteDescr.alignment = false)
            ∧ 1 < PyArray_SIZE dstA ∧ dstA.descr.refchk = false)) := by
  refine ⟨rfl, rfl, rfl, ?_⟩
  exact (assignRawScalar_staging_iff exampleExt dstA byteDescr 0 (fun _ => 5) none
    .NPY_SAFE_CASTING rfl rfl rfl).1

/-- C4: for every destination and every mask of the same shape that is true at
every position, the masked broadcast engine produces exactly the same final
destination bytes as the unconditional broadcast engine applied to the same
destination, scalar type, and scalar bytes (assuming both transfer-function
constructors succeed, so both engines run their write loops). -/
theorem wheremasked_allTrue_eq_assign (e : Externals) (shape : List Nat)
    (dst_dtype : Descr) (dst_data : Int) (dst_strides : List Int)
    (src_dtype : Descr) (src_data : Int) (srcBytes : Nat → Nat)
    (wm_dtype : Descr) (wm_data : Int) (wm_strides : List Int)
    (maskMem : Mem) (mem : Mem)
    (hok : ∀ a, e.castOK a src_dtype dst_dtype = true)
    (hokm : ∀ a, e.maskedCastOK a src_dtype dst_dtype wm_dtype = true)
    (htrue : ∀ c ∈ coordsList shape, maskMem (wm_data + offsetOf c wm_strides) ≠ 0) :
    (raw_array_wheremasked_assign_scalar e shape dst_dtype dst_data dst_strides
        src_dtype src_data srcBytes wm_dtype wm_data wm_strides maskMem mem).mem
      = (raw_array_assign_scalar e shape dst_dtype dst_data dst_strides
        src_dtype src_data srcBytes mem).mem := by
  unfold raw_array_wheremasked_assign_scalar raw_array_assign_scalar
  simp only [hok, hokm]
  norm_num
  rw [foldl_masked_eq_foldl]
  · simp [List.map_map, Function.comp_def]
  · intro p hp
    rcases List.mem_map.mp hp with ⟨c, hc, rfl⟩
    exact htrue c hc

/-- Witness for C4 at a concrete input: shape [2], all-true mask. -/
theorem wheremasked_allTrue_eq_assign_witness :
    (∀ a, exampleExt.castOK a intDescr intDescr = true)
    ∧ (∀ c ∈ coordsList [2], (fun _ => (1 : Nat)) ((0 : Int) + offsetOf c [1]) ≠ 0)
    ∧ (raw_array_wheremasked_assign_scalar exampleExt [2] intDescr 0 [4]
        intDescr 0 (fun _ => 7) byteDescr 0 [1] (fun _ => 1) (fun _ => 0)).mem
      = (raw_array_assign_scalar exampleExt [2] intDescr 0 [4]
        intDescr 0 (fun _ => 7) (fun _ => 0)).mem := by
  refine ⟨fun a => rfl, by decide, ?_⟩
  exact wheremasked_allTrue_eq_assign exampleExt [2] intDescr 0 [4] intDescr 0
    (fun _ => 7) byteDescr 0 [1] (fun _ => 1) (fun _ => 0)
    (fun a => rfl) (fun a => rfl) (by decide)

/-- C5: for every destination and every mask that is false at every position, a
successful masked assignment leaves every byte of the destination memory
unchanged. -/
theorem wheremasked_allFalse_unchanged (e : Externals) (shape : List Nat)
    (dst_dtype : Descr) (dst_data : Int) (dst_strides : List Int)
    (src_dtype : Descr) (src_data : Int) (srcBytes : Nat → Nat)
    (wm_dtype : Descr) (wm_data : Int) (wm_strides : List Int)
    (maskMem : Mem) (mem : Mem)
    (hokm : ∀ a, e.maskedCastOK a src_dtype dst_dtype wm_dtype = true)
    (hfalse : ∀ c ∈ coordsList shape, maskMem (wm_data + offsetOf c wm_strides) = 0) :
    (raw_array_wheremasked_assign_scalar e shape dst_dtype dst_data dst_strides
        src_dtype src_data srcBytes wm_dtype wm_data wm_strides maskMem mem).mem = mem := by
  unfold raw_array_wheremasked_assign_scalar
  simp only [hokm]
  norm_num
  rw [foldl_masked_allFalse]
  intro p hp
  rcases List.mem_map.mp hp with ⟨c, hc, rfl⟩
  exact hfalse c hc

/-- Witness for C5 at a concrete input: shape [2], all-false mask. -/
theorem wheremasked_allFalse_unchanged_witness :
    (∀ a, exampleExt.maskedCastOK a intDescr intDescr byteDescr = true)
    ∧ (∀ c ∈ coordsList [2], (fun _ => (0 : Nat)) ((0 : Int) + offsetOf c [1]) = 0)
    ∧ (raw_array_wheremasked_assign_scalar exampleExt [2] intDescr 0 [4]
        intDescr 0 (fun _ => 7) byteDescr 0 [1] (fun _ => 0) (fun _ => 9)).mem
      = (fun _ => 9) := by
  refine ⟨fun a => rfl, by decide, ?_⟩
  exact wheremasked_allFalse_unchanged exampleExt [2] intDescr 0 [4] intDescr 0
    (fun _ => 7) byteDescr 0 [1] (fun _ => 0) (fun _ => 9)
    (fun a => rfl) (by decide)

/-- C6: for both broadcast engines, if the external transfer-function
constructor reports failure, the engine returns failure immediately, the
destination memory is untouched, and no write event occurs (the write loop is
never entered). -/
theorem getTransfer_fail_no_write (e : Externals) (shape : List Nat)
    (dst_dtype : Descr) (dst_data : Int) (dst_strides : List Int)
    (src_dtype : Descr) (src_data : Int) (srcBytes : Nat → Nat)
    (wm_dtype : Descr) (wm_data : Int) (wm_strides : List Int)
    (maskMem : Mem) (mem : Mem) :
    ((∀ a, e.castOK a src_dtype dst_dtype = false) →
      (raw_array_assign_scalar e shape dst_dtype dst_data dst_strides
          src_dtype src_data srcBytes mem).ret = -1
      ∧ (raw_array_assign_scalar e shape dst_dtype dst_data dst_strides
          src_dtype src_data srcBytes mem).mem = mem
      ∧ ∀ o, Event.write o ∉ (raw_array_assign_scalar e shape dst_dtype dst_data
          dst_strides src_dtype src_data srcBytes mem).trace)
    ∧ ((∀ a, e.maskedCastOK a src_dtype dst_dtype wm_dtype = false) →
      (raw_array_wheremasked_assign_scalar e shape dst_dtype dst_data dst_strides
          src_dtype src_data srcBytes wm_dtype wm_data wm_strides maskMem mem).ret = -1
      ∧ (raw_array_wheremasked_assign_scalar e shape dst_dtype dst_data dst_strides
          src_dtype src_data srcBytes wm_dtype wm_data wm_strides maskMem mem).mem = mem
      ∧ ∀ o, Event.write o ∉ (raw_array_wheremasked_assign_scalar e shape dst_dtype
          dst_data dst_strides src_dtype src_data srcBytes wm_dtype wm_data
          wm_strides maskMem mem).trace) := by
  constructor
  · intro hfail
    unfold raw_array_assign_scalar
    simp [hfail]
  · intro hfail
    unfold raw_array_wheremasked_assign_scalar
    simp [hfail]

/-- Witness for C6 at a concrete input: a failing constructor on both engines. -/
theorem getTransfer_fail_no_write_witness :
    (∀ a, extNoTransfer.castOK a byteDescr intDescr = false)
    ∧ (∀ a, extNoTransfer.maskedCastOK a byteDescr intDescr byteDescr = false)
    ∧ (raw_array_assign_scalar extNoTransfer [2] intDescr 0 [4]
        byteDescr 0 (fun _ => 5) (fun _ => 0)).ret = -1
    ∧ (raw_array_assign_scalar extNoTransfer [2] intDescr 0 [4]
        byteDescr 0 (fun _ => 5) (fun _ => 0)).mem = (fun _ => 0)
    ∧ (raw_array_wheremasked_assign_scalar extNoTransfer [2] intDescr 0 [4]
        byteDescr 0 (fun _ => 5) byteDescr 0 [1] (fun _ => 1) (fun _ => 0)).ret = -1 := by
  refine ⟨fun a => rfl, fun a => rfl, ?_⟩
  have h := getTransfer_fail_no_write extNoTransfer [2] intDescr 0 [4] byteDescr 0
    (fun _ => 5) byteDescr 0 [1] (fun _ => 1) (fun _ => 0)
  exact ⟨(h.1 (fun a => rfl)).1, (h.1 (fun a => rfl)).2.1, (h.2 (fun a => rfl)).1⟩

/-- Characterization of the unconditional engine once the transfer-function
constructor succeeds. -/
theorem raw_array_assign_scalar_eq (e : Externals) (shape : List Nat)
    (dst_dtype : Descr) (dst_data : Int) (dst_strides : List Int)
    (src_dtype : Descr) (src_data : Int) (srcBytes : Nat → Nat) (mem : Mem)
    (hok : ∀ a, e.castOK a src_dtype dst_dtype = true) :
    raw_array_assign_scalar e shape dst_dtype dst_data dst_strides
        src_dtype src_data srcBytes mem
    = { ret := if e.needsApiFor src_dtype dst_dtype
              && (e.transferRaises src_dtype dst_dtype && decide (0 < prodShape shape))
            then -1 else 0
        mem := ((coordsList shape).map (fun c => dst_data + offsetOf c dst_strides)).foldl
            (fun m o => storeElem m o dst_dtype.elsize
              (e.castElem src_dtype dst_dtype srcBytes)) mem
        alignedFlag := raw_array_is_aligned dst_data dst_strides dst_dtype.alignment
            && npy_is_aligned src_data src_dtype.alignment
        errPending := e.transferRaises src_dtype dst_dtype && decide (0 < prodShape shape)
        trace := [.getTransfer]
          ++ (if e.needsApiFor src_dtype dst_dtype then [] else [.computeCount])
          ++ (if !e.needsApiFor src_dtype dst_dtype
                && decide (threadThreshold < prodShape shape)
              then [.releaseLock] else [])
          ++ ((coordsList shape).map (fun c => Event.write (dst_data + offsetOf c dst_strides)))
          ++ (if !e.needsApiFor src_dtype dst_dtype
                && decide (threadThreshold < prodShape shape)
              then [.reacquireLock] else []) } := by
  unfold raw_array_assign_scalar
  simp [hok, List.map_map, Function.comp_def]

/-- Characterization of the masked engine once the transfer-function
constructor succeeds. -/
theorem raw_array_wheremasked_assign_scalar_eq (e : Externals) (shape : List Nat)
    (dst_dtype : Descr) (dst_data : Int) (dst_strides : List Int)
    (src_dtype : Descr) (src_data : Int) (srcBytes : Nat → Nat)
    (wm_dtype : Descr) (wm_data : Int) (wm_strides : List Int)
    (maskMem : Mem) (mem : Mem)
    (hokm : ∀ a, e.maskedCastOK a src_dtype dst_dtype wm_dtype = true) :
    raw_array_wheremasked_assign_scalar e shape dst_dtype dst_data dst_strides
        src_dtype src_data srcBytes wm_dtype wm_data wm_strides maskMem mem
    = { ret := if e.needsApiFor src_dtype dst_dtype
              && (e.transferRaises src_dtype dst_dtype && decide (0 < prodShape shape))
            then -1 else 0
        mem := ((coordsList shape).map (fun c => (dst_data + offsetOf c dst_strides,
              wm_data + offsetOf c wm_strides))).foldl
            (fun m p => if maskMem p.2 = 0 then m
              else storeElem m p.1 dst_dtype.elsize
                (e.castElem src_dtype dst_dtype srcBytes)) mem
        alignedFlag := raw_array_is_aligned dst_data dst_strides dst_dtype.alignment
            && npy_is_aligned src_data src_dtype.alignment
        errPending := e.transferRaises src_dtype dst_dtype && decide (0 < prodShape shape)
        trace := [.getTransfer]
          ++ (if e.needsApiFor src_dtype dst_dtype then [] else [.computeCount])
          ++ (if !e.needsApiFor src_dtype dst_dtype
                && decide (threadThreshold < prodShape shape)
              then [.releaseLock] else [])
          ++ ((coordsList shape).map (fun c => Event.write (dst_data + offsetOf c dst_strides)))
          ++ (if !e.needsApiFor src_dtype dst_dtype
                && decide (threadThreshold < prodShape shape)
              then [.reacquireLock] else []) } := by
  unfold raw_array_wheremasked_assign_scalar
  simp [hokm, List.map_map, Function.comp_def]

/-- C7: for both broadcast engines, once the transfer function has been
obtained, the write loop runs to completion (a write event is attempted for
every coordinate of the shape), and the engine returns failure exactly when the
chosen transfer required guarded execution and a pending error was raised
during guarded execution; moreover a pending error raised during the loop is
never silently swallowed. -/
theorem loop_failure_postcheck (e : Externals) (shape : List Nat)
    (dst_dtype : Descr) (dst_data : Int) (dst_strides : List Int)
    (src_dtype : Descr) (src_data : Int) (srcBytes : Nat → Nat)
    (wm_dtype : Descr) (wm_data : Int) (wm_strides : List Int)
    (maskMem : Mem) (mem : Mem)
    (hok : ∀ a, e.castOK a src_dtype dst_dtype = true)
    (hokm : ∀ a, e.maskedCastOK a src_dtype dst_dtype wm_dtype = true) :
    ((∀ c ∈ coordsList shape, Event.write (dst_data + offsetOf c dst_strides)
        ∈ (raw_array_assign_scalar e shape dst_dtype dst_data dst_strides
            src_dtype src_data srcBytes mem).trace)
      ∧ ((raw_array_assign_scalar e shape dst_dtype dst_data dst_strides
            src_dtype src_data srcBytes mem).ret = -1
          ↔ e.needsApiFor src_dtype dst_dtype = true
            ∧ (raw_array_assign_scalar e shape dst_dtype dst_data dst_strides
                src_dtype src_data srcBytes mem).errPending = true)
      ∧ ((raw_array_assign_scalar e shape dst_dtype dst_data dst_strides
            src_dtype src_data srcBytes mem).errPending = true →
          (raw_array_assign_scalar e shape dst_dtype dst_data dst_strides
            src_dtype src_data srcBytes mem).ret = -1))
    ∧ ((∀ c ∈ coordsList shape, Event.write (dst_data + offsetOf c dst_strides)
        ∈ (raw_array_wheremasked_assign_scalar e shape dst_dtype dst_data dst_strides
            src_dtype src_data srcBytes wm_dtype wm_data wm_strides maskMem mem).trace)
      ∧ ((raw_array_wheremasked_assign_scalar e shape dst_dtype dst_data dst_strides
            src_dtype src_data srcBytes wm_dtype wm_data wm_strides maskMem mem).ret = -1
          ↔ e.needsApiFor src_dtype dst_dtype = true
            ∧ (raw_array_wheremasked_assign_scalar e shape dst_dtype dst_data dst_strides
                src_dtype src_data srcBytes wm_dtype wm_data wm_strides maskMem mem).errPending
              = true)
      ∧ ((raw_array_wheremasked_assign_scalar e shape dst_dtype dst_data dst_strides
            src_dtype src_data srcBytes wm_dtype wm_data wm_strides maskMem mem).errPending
            = true →
          (raw_array_wheremasked_assign_scalar e shape dst_dtype dst_data dst_strides
            src_dtype src_data srcBytes wm_dtype wm_data wm_strides maskMem mem).ret = -1)) := by
  rw [raw_array_assign_scalar_eq e shape dst_dtype dst_data dst_strides
    src_dtype src_data srcBytes mem hok]
  rw [raw_array_wheremasked_assign_scalar_eq e shape dst_dtype dst_data dst_strides
    src_dtype src_data srcBytes wm_dtype wm_data wm_strides maskMem mem hokm]
  have hmem : ∀ c ∈ coordsList shape, Event.write (dst_data + offsetOf c dst_strides)
      ∈ [Event.getTransfer]
        ++ (if e.needsApiFor src_dtype dst_dtype then [] else [Event.computeCount])
        ++ (if !e.needsApiFor src_dtype dst_dtype
              && decide (threadThreshold < prodShape shape)
            then [Event.releaseLock] else [])
        ++ ((coordsList shape).map (fun c => Event.write (dst_data + offsetOf c dst_strides)))
        ++ (if !e.needsApiFor src_dtype dst_dtype
              && decide (threadThreshold < prodShape shape)
            then [Event.reacquireLock] else []) := by
    intro c hc
    simp only [List.mem_append]
    exact Or.inl (Or.inr (List.mem_map.mpr ⟨c, hc, rfl⟩))
  have hret : (if e.needsApiFor src_dtype dst_dtype
        && (e.transferRaises src_dtype dst_dtype && decide (0 < prodShape shape))
      then (-1 : Int) else 0) = -1
      ↔ e.needsApiFor src_dtype dst_dtype = true
        ∧ (e.transferRaises src_dtype dst_dtype && decide (0 < prodShape shape)) = true := by
    cases hapi : e.needsApiFor src_dtype dst_dtype <;>
      cases herr : (e.transferRaises src_dtype dst_dtype && decide (0 < prodShape shape)) <;>
      simp
  have hswallow : (e.transferRaises src_dtype dst_dtype && decide (0 < prodShape shape)) = true →
      (if e.needsApiFor src_dtype dst_dtype
          && (e.transferRaises src_dtype dst_dtype && decide (0 < prodShape shape))
        then (-1 : Int) else 0) = -1 := by
    intro herr
    have hr : e.transferRaises src_dtype dst_dtype = true :=
      ((Bool.and_eq_true _ _).mp herr).1
    rw [e.raises_imp_api src_dtype dst_dtype hr, herr]
    rfl
  exact ⟨⟨hmem, hret, hswallow⟩, ⟨hmem, hret, hswallow⟩⟩

/-- Witness for C7 at a concrete input. -/
theorem loop_failure_postcheck_witness :
    (∀ a, exampleExt.castOK a intDescr intDescr = true)
    ∧ (∀ a, exampleExt.maskedCastOK a intDescr intDescr byteDescr = true)
    ∧ ((raw_array_assign_scalar exampleExt [2] intDescr 0 [4]
          intDescr 0 (fun _ => 7) (fun _ => 0)).ret = -1
        ↔ exampleExt.needsApiFor intDescr intDescr = true
          ∧ (raw_array_assign_scalar exampleExt [2] intDescr 0 [4]
              intDescr 0 (fun _ => 7) (fun _ => 0)).errPending = true) := by
  refine ⟨fun a => rfl, fun a => rfl, ?_⟩
  exact (loop_failure_postcheck exampleExt [2] intDescr 0 [4] intDescr 0
    (fun _ => 7) byteDescr 0 [1] (fun _ => 1) (fun _ => 0)
    (fun a => rfl) (fun a => rfl)).1.2.1

/-- C8: in both broadcast engines, the alignment flag passed to the external
transfer-function selector is true exactly when the destination satisfies its
element alignment requirement at the base pointer and at every stride step and
the source scalar pointer is aligned to the source type's own alignment
requirement; if either condition fails the flag is false. -/
theorem alignment_flag_spec (e : Externals) (shape : List Nat)
    (dst_dtype : Descr) (dst_data : Int) (dst_strides : List Int)
    (src_dtype : Descr) (src_data : Int) (srcBytes : Nat → Nat)
    (wm_dtype : Descr) (wm_data : Int) (wm_strides : List Int)
    (maskMem : Mem) (mem : Mem) :
    ((raw_array_assign_scalar e shape dst_dtype dst_data dst_strides
        src_dtype src_data srcBytes mem).alignedFlag = true
      ↔ (npy_is_aligned dst_data dst_dtype.alignment = true
          ∧ (∀ s ∈ dst_strides, npy_is_aligned s dst_dtype.alignment = true)
          ∧ npy_is_aligned src_data src_dtype.alignment = true))
    ∧ ((raw_array_wheremasked_assign_scalar e shape dst_dtype dst_data dst_strides
        src_dtype src_data srcBytes wm_dtype wm_data wm_strides maskMem mem).alignedFlag = true
      ↔ (npy_is_aligned dst_data dst_dtype.alignment = true
          ∧ (∀ s ∈ dst_strides, npy_is_aligned s dst_dtype.alignment = true)
          ∧ npy_is_aligned src_data src_dtype.alignment = true)) := by
  constructor
  · unfold raw_array_assign_scalar
    dsimp only
    split <;>
      simp [raw_array_is_aligned, Bool.and_eq_true, List.all_eq_true, and_assoc]
  · unfold raw_array_wheremasked_assign_scalar
    dsimp only
    split <;>
      simp [raw_array_is_aligned, Bool.and_eq_true, List.all_eq_true, and_assoc]

/-- C9: in both broadcast engines the coarse-grained execution lock is released
exactly when the chosen transfer does not require guarded execution and the
total element count exceeds the internal threshold; the event trace shows that
the element count computation and any release happen strictly after the
transfer function is obtained, and that the lock is reacquired after the write
loop. -/
theorem lock_release_threshold (e : Externals) (shape : List Nat)
    (dst_dtype : Descr) (dst_data : Int) (dst_strides : List Int)
    (src_dtype : Descr) (src_data : Int) (srcBytes : Nat → Nat)
    (wm_dtype : Descr) (wm_data : Int) (wm_strides : List Int)
    (maskMem : Mem) (mem : Mem)
    (hok : ∀ a, e.castOK a src_dtype dst_dtype = true)
    (hokm : ∀ a, e.maskedCastOK a src_dtype dst_dtype wm_dtype = true) :
    ((Event.releaseLock ∈ (raw_array_assign_scalar e shape dst_dtype dst_data
          dst_strides src_dtype src_data srcBytes mem).trace
        ↔ (e.needsApiFor src_dtype dst_dtype = false
            ∧ threadThreshold < prodShape shape))
      ∧ (raw_array_assign_scalar e shape dst_dtype dst_data dst_strides
          src_dtype src_data srcBytes mem).trace
        = [Event.getTransfer]
          ++ (if e.needsApiFor src_dtype dst_dtype then [] else [Event.computeCount])
          ++ (if !e.needsApiFor src_dtype dst_dtype
                && decide (threadThreshold < prodShape shape)
              then [Event.releaseLock] else [])
          ++ ((coordsList shape).map (fun c => Event.write (dst_data + offsetOf c dst_strides)))
          ++ (if !e.needsApiFor src_dtype dst_dtype
                && decide (threadThreshold < prodShape shape)
              then [Event.reacquireLock] else []))
    ∧ ((Event.releaseLock ∈ (raw_array_wheremasked_assign_scalar e shape dst_dtype
          dst_data dst_strides src_dtype src_data srcBytes wm_dtype wm_data
          wm_strides maskMem mem).trace
        ↔ (e.needsApiFor src_dtype dst_dtype = false
            ∧ threadThreshold < prodShape shape))
      ∧ (raw_array_wheremasked_assign_scalar e shape dst_dtype dst_data dst_strides
          src_dtype src_data srcBytes wm_dtype wm_data wm_strides maskMem mem).trace
        = [Event.getTransfer]
          ++ (if e.needsApiFor src_dtype dst_dtype then [] else [Event.computeCount])
          ++ (if !e.needsApiFor src_dtype dst_dtype
                && decide (threadThreshold < prodShape shape)
              then [Event.releaseLock] else [])
          ++ ((coordsList shape).map (fun c => Event.write (dst_data + offsetOf c dst_strides)))
          ++ (if !e.needsApiFor src_dtype dst_dtype
                && decide (threadThreshold < prodShape shape)
              then [Event.reacquireLock] else [])) := by
  rw [raw_array_assign_scalar_eq e shape dst_dtype dst_data dst_strides
    src_dtype src_data srcBytes mem hok]
  rw [raw_array_wheremasked_assign_scalar_eq e shape dst_dtype dst_data dst_strides
    src_dtype src_data srcBytes wm_dtype wm_data wm_strides maskMem mem hokm]
  have hmem : Event.releaseLock ∈ [Event.getTransfer]
        ++ (if e.needsApiFor src_dtype dst_dtype then [] else [Event.computeCount])
        ++ (if !e.needsApiFor src_dtype dst_dtype
              && decide (threadThreshold < prodShape shape)
            then [Event.releaseLock] else [])
        ++ ((coordsList shape).map (fun c => Event.write (dst_data + offsetOf c dst_strides)))
        ++ (if !e.needsApiFor src_dtype dst_dtype
              && decide (threadThreshold < prodShape shape)
            then [Event.reacquireLock] else [])
      ↔ (e.needsApiFor src_dtype dst_dtype = false ∧ threadThreshold < prodShape shape) := by
    cases hapi : e.needsApiFor src_dtype dst_dtype <;>
      by_cases hth : threadThreshold < prodShape shape <;>
      simp [hapi, hth, List.mem_map]
  exact ⟨⟨hmem, rfl⟩, ⟨hmem, rfl⟩⟩

/-- Witness for C9 at a concrete input: 501 elements, no guarded execution. -/
theorem lock_release_threshold_witness :
    (∀ a, exampleExt.castOK a intDescr intDescr = true)
    ∧ (Event.releaseLock ∈ (raw_array_assign_scalar exampleExt [501] intDescr 0 [4]
          intDescr 0 (fun _ => 7) (fun _ => 0)).trace
        ↔ (exampleExt.needsApiFor intDescr intDescr = false
            ∧ threadThreshold < prodShape [501])) := by
  refine ⟨fun a => rfl, ?_⟩
  exact (lock_release_threshold exampleExt [501] intDescr 0 [4] intDescr 0
    (fun _ => 7) byteDescr 0 [1] (fun _ => 1) (fun _ => 0)
    (fun a => rfl) (fun a => rfl)).1.1

/-- C10: for a destination with zero total elements, AssignScalar still performs
the writability check and the value-aware cast-safety check, returning the
corresponding failure if either rejects; it never stages the scalar; and on the
success path it writes no destination bytes and returns success. -/
theorem zero_size_assign (e : Externals) (dst : PyArrayObject)
    (src_dtype : Descr) (src_data : Int) (srcBytes : Nat → Nat)
    (casting : NPY_CASTING)
    (hsz : prodShape dst.shape = 0) :
    (dst.writeable = false →
      (PyArray_AssignRawScalar e dst src_dtype src_data srcBytes none casting).ret = -1
      ∧ (PyArray_AssignRawScalar e dst src_dtype src_data srcBytes none casting).err
          = some .notWriteable)
    ∧ (dst.writeable = true →
        e.canCastScalarTo src_dtype srcBytes dst.descr casting = false →
        (PyArray_AssignRawScalar e dst src_dtype src_data srcBytes none casting).ret = -1
        ∧ (PyArray_AssignRawScalar e dst src_dtype src_data srcBytes none casting).err
            = some (.cannotCastScalar (e.reprOf src_dtype) (e.reprOf dst.descr)
                (npy_casting_to_string casting)))
    ∧ (PyArray_AssignRawScalar e dst src_dtype src_data srcBytes none casting).staged = false
    ∧ (dst.writeable = true →
        e.canCastScalarTo src_dtype srcBytes dst.descr casting = true →
        (∀ a, e.castOK a src_dtype dst.descr = true) →
        (PyArray_AssignRawScalar e dst src_dtype src_data srcBytes none casting).ret = 0
        ∧ (PyArray_AssignRawScalar e dst src_dtype src_data srcBytes none casting).mem
            = dst.mem) := by
  refine ⟨?_, ?_, ?_, ?_⟩
  · intro hw
    unfold PyArray_AssignRawScalar
    simp [hw]
  · intro hw hc
    unfold PyArray_AssignRawScalar
    simp [hw, hc]
  · unfold PyArray_AssignRawScalar finishAssign
    simp only [PyArray_SIZE, hsz]
    norm_num
    repeat' split
    all_goals simp_all
  · intro hw hc hok
    unfold PyArray_AssignRawScalar finishAssign
    simp only [hw, hc, PyArray_SIZE, hsz]
    norm_num
    rw [raw_array_assign_scalar_eq e dst.shape dst.descr dst.data dst.strides
      src_dtype src_data srcBytes dst.mem hok]
    simp [coordsList_eq_nil _ hsz, hsz]

/-- Witness for C10 at a concrete input: a shape [0] destination. -/
theorem zero_size_assign_witness :
    prodShape dstZero.shape = 0
    ∧ (PyArray_AssignRawScalar exampleExt dstZero byteDescr 0 (fun _ => 5) none
        .NPY_SAFE_CASTING).staged = false
    ∧ ((dstZero.writeable = true →
        exampleExt.canCastScalarTo byteDescr (fun _ => 5) dstZero.descr .NPY_SAFE_CASTING = true →
        (∀ a, exampleExt.castOK a byteDescr dstZero.descr = true) →
        (PyArray_AssignRawScalar exampleExt dstZero byteDescr 0 (fun _ => 5) none
            .NPY_SAFE_CASTING).ret = 0
        ∧ (PyArray_AssignRawScalar exampleExt dstZero byteDescr 0 (fun _ => 5) none
            .NPY_SAFE_CASTING).mem = dstZero.mem)) := by
  refine ⟨rfl, ?_, ?_⟩
  · exact (zero_size_assign exampleExt dstZero byteDescr 0 (fun _ => 5)
      .NPY_SAFE_CASTING rfl).2.2.1
  · exact (zero_size_assign exampleExt dstZero byteDescr 0 (fun _ => 5)
      .NPY_SAFE_CASTING rfl).2.2.2

end ArrayAssignScalar
